import Mathlib

/-!
Shallow embedding of src/bitshares/market.py, the Market class of
python-bitshares.  Pure data and arithmetic are translated into executable
Lean definitions; external collaborators (asset lookup, account lookup, rpc,
transaction finalization) are passed in as explicit function arguments or
inputs.  Python float arithmetic is modelled by exact rationals together
with an executable round-to-nearest-even model of IEEE 754 binary64
rounding, adequate on the normal range the code exercises.
-/

deriving instance DecidableEq for Except

/-- Python exception kinds raised by the embedded code paths of market.py. -/
inductive PyErr
  | valueError
  | assertionError
  | assetNotFound
deriving DecidableEq

/-- Test whether a result is an error, i.e. the Python call raised before
reaching the transaction finalization collaborator. -/
def exceptIsError {α : Type} : Except PyErr α → Bool
  | .error _ => true
  | .ok _ => false

/-! ## Model of Python binary64 float arithmetic -/

/-- Number of binary digits of a natural number, with explicit fuel so the
kernel can evaluate it (adequate for inputs below 2 ^ 4096). -/
def bitlenAux : Nat → Nat → Nat
  | 0, _ => 0
  | fuel + 1, n => if n = 0 then 0 else bitlenAux fuel (n / 2) + 1

/-- Number of binary digits of a natural number. -/
def bitlen (n : Nat) : Nat := bitlenAux 4096 n

/-- Floor of the base-2 logarithm of the positive rational n / d. -/
def floorLog2 (n d : Nat) : Int :=
  let l : Int := (bitlen n : Int) - (bitlen d : Int)
  if 0 ≤ l then
    if d * 2 ^ l.toNat ≤ n then l else l - 1
  else
    if d ≤ n * 2 ^ (-l).toNat then l else l - 1

/-- Nearest natural number to n / d, ties to even (the IEEE 754 default
rounding direction). -/
def rndNatFrac (n d : Nat) : Nat :=
  let q := n / d
  let r := n % d
  if 2 * r < d then q
  else if d < 2 * r then q + 1
  else if q % 2 = 0 then q else q + 1

/-- Round the positive rational n / d to 53 significant bits, to nearest,
ties to even: the binary64 double nearest to n / d on the normal range. -/
def roundB64pos (n d : Nat) : ℚ :=
  if n = 0 then 0
  else
    let e : Int := floorLog2 n d - 52
    if 0 ≤ e then
      (rndNatFrac n (d * 2 ^ e.toNat) : ℚ) * ((2 ^ e.toNat : ℕ) : ℚ)
    else
      (rndNatFrac (n * 2 ^ (-e).toNat) d : ℚ) / ((2 ^ (-e).toNat : ℕ) : ℚ)

/-- The binary64 double nearest to an exact rational value. -/
def roundB64 (q : ℚ) : ℚ :=
  if q < 0 then -roundB64pos (-q).num.natAbs (-q).den
  else roundB64pos q.num.natAbs q.den

/-- Binary64 multiplication: exact product, then one rounding. -/
def fmul (a b : ℚ) : ℚ := roundB64 (a * b)

/-- Binary64 division: exact quotient, then one rounding. -/
def fdiv (a b : ℚ) : ℚ := roundB64 (a / b)

/-- The double produced by a Python float literal or conversion: the binary64
value nearest to the exact decimal value. -/
def pyFloat (q : ℚ) : ℚ := roundB64 q

/-- Python int() applied to a float value: truncation toward zero. -/
def pyInt (q : ℚ) : Int := q.num.tdiv (q.den : Int)

/-- Nearest integer with ties to even, used to contrast the truncation the
code performs with rounding to nearest. -/
def nearestInt (q : ℚ) : Int :=
  if q < 0 then -(rndNatFrac q.num.natAbs q.den : Int)
  else (rndNatFrac q.num.natAbs q.den : Int)

/-! ## Asset and market identity -/

/-- Asset reference data as market.py reads it off the asset dictionaries:
object id, symbol, fixed-point precision, and the optional bitasset data
object id, present exactly for settlement-backed (smartcoin) assets. -/
structure Asset where
  id : String
  symbol : String
  precision : Nat
  bitasset_data_id : Option String := none
deriving DecidableEq

/-- A positional argument of the Market constructor: a string, or any other
object (which the constructor ignores). -/
inductive InitArg
  | str (s : List Char)
  | other
deriving DecidableEq

/-- The character class of the regular expression at market.py line 57,
written as an opening bracket, slash, dash, colon, closing bracket.  Inside
a class the dash forms the range from the slash (0x2F) to the colon (0x3A),
so the class matches the slash, the ten digits and the colon, but not the
dash itself. -/
def isSepChar (c : Char) : Bool :=
  decide (47 ≤ c.toNat) && decide (c.toNat ≤ 58)

/-- re.split with a single-character class: cut the string at every matching
character, keeping empty pieces.  The accumulator holds the current piece in
reverse. -/
def splitSep : List Char → List Char → List (List Char)
  | [], acc => [acc.reverse]
  | c :: rest, acc =>
    if isSepChar c then acc.reverse :: splitSep rest []
    else splitSep rest (c :: acc)

/-- The pair of attributes Market.__init__ may set; none means the attribute
was never assigned, i.e. the constructor fell through both if branches
without raising. -/
structure MarketState where
  base : Option Asset
  quote : Option Asset
deriving DecidableEq

/-- Market.__init__ (market.py lines 45 to 64).  resolve stands for the
external Asset lookup by symbol; a symbol it does not know makes the Asset
constructor raise.  The single-string form splits on the slash-to-colon
character class of isSepChar, and
exactly two pieces unpack into (quote_symbol, base_symbol); any other number
of pieces raises ValueError at the unpacking.  With no positional argument
and both keyword assets given, the pair is stored directly.  Every other
input falls through both branches and returns with nothing assigned. -/
def marketInit (args : List InitArg) (base? quote? : Option Asset)
    (resolve : List Char → Option Asset) : Except PyErr MarketState :=
  match args, base?, quote? with
  | [InitArg.str s], _, _ =>
    match splitSep s [] with
    | [qs, bs] =>
      match resolve qs, resolve bs with
      | some q, some b => .ok { base := some b, quote := some q }
      | _, _ => .error .assetNotFound
    | _ => .error .valueError
  | [], some b, some q => .ok { base := some b, quote := some q }
  | _, _, _ => .ok { base := none, quote := none }

/-- Market construction from a single combined specifier string. -/
def marketFromString (s : List Char) (resolve : List Char → Option Asset) :
    Except PyErr MarketState :=
  marketInit [InitArg.str s] none none resolve

/-! ## Ticker -/

/-- The bitasset data object fetched through rpc.get_object: the backing
asset id from its options, and the current feed settlement price as the
float the code extracts. -/
structure Bitasset where
  short_backing_asset : String
  settlement_price : ℚ
deriving DecidableEq

/-- The optional settlement price entries of the ticker result. -/
structure TickerSettlement where
  quoteSettlement_price : Option ℚ
  base_settlement_price : Option ℚ
deriving DecidableEq

/-- The smartcoin block of Market.ticker (market.py lines 102 to 112): an
if / elif chain on the presence of bitasset_data_id, quote side first, so
the base side is only examined when the quote side has no bitasset data id.
getObject stands for rpc.get_object. -/
def tickerSettlement (quote base : Asset) (getObject : String → Bitasset) :
    TickerSettlement :=
  match quote.bitasset_data_id with
  | some qid =>
    let ba := getObject qid
    { quoteSettlement_price :=
        if ba.short_backing_asset = base.id then some ba.settlement_price else none
      base_settlement_price := none }
  | none =>
    match base.bitasset_data_id with
    | some bid =>
      let ba := getObject bid
      { quoteSettlement_price := none
        base_settlement_price :=
          if ba.short_backing_asset = quote.id then some ba.settlement_price else none }
    | none => { quoteSettlement_price := none, base_settlement_price := none }

/-- A Python value as stored into the ticker result dictionary: a plain
string, or a one-element tuple of a string, which is what an assignment
whose right hand side ends in a comma produces. -/
inductive PyVal
  | str (s : String)
  | tuple1 (s : String)
deriving DecidableEq

/-- The four id and symbol entries of the ticker result. -/
structure TickerIdFields where
  base_id : PyVal
  base_symbol : PyVal
  quote_id : PyVal
  quote_symbol : PyVal
deriving DecidableEq

/-- The id and symbol entries of Market.ticker (market.py lines 124 to 127).
Line 124 ends in a comma, so base_id is assigned the one-element tuple
containing the id, while the other three entries are plain values. -/
def tickerIdFields (base quote : Asset) : TickerIdFields :=
  { base_id := PyVal.tuple1 base.id
    base_symbol := PyVal.str base.symbol
    quote_id := PyVal.str quote.id
    quote_symbol := PyVal.str quote.symbol }

/-! ## Account trades -/

/-- One entry of the fill order history page: the account id read through
op and account_id, and an abstract payload for the rest of the entry. -/
structure FillOrder where
  account_id : String
  payload : String
deriving DecidableEq

/-- Market.accounttrades (market.py lines 261 to 277): fetch a page of
2 * limit fills from the history api, then keep exactly those whose op
account id equals the resolved account id.  The matches are never truncated
to limit afterwards.  getFillOrderHistory stands for the rpc call, taking
the requested page size. -/
def accounttrades (getFillOrderHistory : Nat → List FillOrder)
    (accountId : String) (limit : Nat) : List FillOrder :=
  (getFillOrderHistory (2 * limit)).filter (fun f => decide (f.account_id = accountId))

/-! ## Order placement -/

/-- Modelled from the spec: the Price class (src/bitshares/price.py is not
under src).  Spec section 3: a ratio of base-per-quote, carrying the two
asset references for validation, invertible.  value is the ratio as the
float the order arithmetic reads off the object. -/
structure PriceObj where
  baseSym : String
  quoteSym : String
  value : ℚ
deriving DecidableEq

/-- Modelled from the spec: Price.invert swaps the two asset references and
takes the reciprocal ratio. -/
def PriceObj.invert (P : PriceObj) : PriceObj :=
  { baseSym := P.quoteSym, quoteSym := P.baseSym, value := P.value⁻¹ }

/-- The price argument of buy and sell: a raw number, or a Price object. -/
inductive PriceInput
  | raw (v : ℚ)
  | obj (P : PriceObj)
deriving DecidableEq

/-- Modelled from the spec: the Amount class (src/bitshares/amount.py is not
under src).  Spec section 3: a decimal quantity tagged with its asset. -/
structure AmountObj where
  value : ℚ
  assetSymbol : String
deriving DecidableEq

/-- The amount argument of buy and sell: a raw number, or an Amount object. -/
inductive AmountInput
  | raw (v : ℚ)
  | obj (A : AmountObj)
deriving DecidableEq

/-- An integer asset amount as placed into the operation dictionary. -/
structure AssetAmount where
  amount : Int
  asset_id : String
deriving DecidableEq

/-- The limit_order_create operation as built by buy and sell, restricted to
the fields whose values the embedding can express; the expiration string is
produced by an external time formatter and is omitted. -/
structure LimitOrderCreate where
  fee : AssetAmount
  seller : String
  amount_to_sell : AssetAmount
  min_to_receive : AssetAmount
  fill_or_kill : Bool
deriving DecidableEq

/-- A market as used by the trading calls: the resolved base and quote
assets. -/
structure Market where
  base : Asset
  quote : Asset
deriving DecidableEq

/-- The Price branch of buy and sell (market.py lines 375 to 387 and 456 to
468): a Price aligned with the market passes through, a Price in the
reversed orientation is inverted, any other Price raises ValueError; a raw
number is used as is.  Returns the float value the order arithmetic
consumes. -/
def resolvePrice (m : Market) (p : PriceInput) : Except PyErr ℚ :=
  match p with
  | .raw v => .ok v
  | .obj P =>
    if P.quoteSym = m.quote.symbol ∧ P.baseSym = m.base.symbol then .ok P.value
    else if P.baseSym = m.quote.symbol ∧ P.quoteSym = m.base.symbol then
      .ok P.invert.value
    else .error .valueError

/-- The Amount branch of buy and sell (market.py lines 389 to 393 and 470 to
474): an Amount object must carry the market quote symbol, enforced by an
assert statement; a raw number is wrapped into an Amount of the quote asset.
Returns the float value. -/
def resolveAmount (m : Market) (a : AmountInput) : Except PyErr ℚ :=
  match a with
  | .raw v => .ok v
  | .obj A =>
    if A.assetSymbol = m.quote.symbol then .ok A.value else .error .assertionError

/-- int of float(amount) times 10 to the precision: the conversion of a
decimal amount into integer units (market.py lines 402 to 405 for buy and
479 to 482 for sell).  The power of ten is a Python int converted to a
double for the multiplication, and int() truncates toward zero. -/
def toIntUnits (a : ℚ) (precision : Nat) : Int :=
  pyInt (fmul a (roundB64 ((10 ^ precision : ℕ) : ℚ)))

/-- int of float(amount) times float(price) times 10 to the precision: the
conversion of the priced side into integer units (market.py lines 398 to
401 for buy and 483 to 486 for sell), with the products taken left to
right in double arithmetic. -/
def toIntUnitsPrice (a p : ℚ) (precision : Nat) : Int :=
  pyInt (fmul (fmul a p) (roundB64 ((10 ^ precision : ℕ) : ℚ)))

/-- float of the integer amount divided by 10 to the precision: the back
conversion from integer units to a decimal value as accountopenorders does
it (market.py lines 302 to 303). -/
def fromIntUnits (n : Int) (precision : Nat) : ℚ :=
  fdiv (roundB64 (n : ℚ)) (roundB64 ((10 ^ precision : ℕ) : ℚ))

/-- Market.buy (market.py lines 326 to 409, up to the finalizeOp call):
validate the price orientation, validate the amount asset, then build the
limit_order_create operation selling base units to receive quote units.  An
error result means the Python call raised and no operation was handed to
the transaction finalization collaborator. -/
def Market.buy (m : Market) (accountId : String) (price : PriceInput)
    (amount : AmountInput) (killfill : Bool) : Except PyErr LimitOrderCreate :=
  match resolvePrice m price with
  | .error e => .error e
  | .ok p =>
    match resolveAmount m amount with
    | .error e => .error e
    | .ok a =>
      .ok {
        fee := { amount := 0, asset_id := "1.3.0" }
        seller := accountId
        amount_to_sell := { amount := toIntUnitsPrice a p m.base.precision
                            asset_id := m.base.id }
        min_to_receive := { amount := toIntUnits a m.quote.precision
                            asset_id := m.quote.id }
        fill_or_kill := killfill }

/-- Market.sell (market.py lines 419 to 490, up to the finalizeOp call):
same validation as buy, then build the limit_order_create operation selling
quote units to receive base units. -/
def Market.sell (m : Market) (accountId : String) (price : PriceInput)
    (amount : AmountInput) (killfill : Bool) : Except PyErr LimitOrderCreate :=
  match resolvePrice m price with
  | .error e => .error e
  | .ok p =>
    match resolveAmount m amount with
    | .error e => .error e
    | .ok a =>
      .ok {
        fee := { amount := 0, asset_id := "1.3.0" }
        seller := accountId
        amount_to_sell := { amount := toIntUnits a m.quote.precision
                            asset_id := m.quote.id }
        min_to_receive := { amount := toIntUnitsPrice a p m.base.precision
                            asset_id := m.base.id }
        fill_or_kill := killfill }

/-- The supplied price is a Price object whose pair of symbols is neither
the market pair nor its reverse. -/
def priceMismatch (m : Market) (p : PriceInput) : Prop :=
  ∃ P, p = PriceInput.obj P ∧
    ¬(P.quoteSym = m.quote.symbol ∧ P.baseSym = m.base.symbol) ∧
    ¬(P.baseSym = m.quote.symbol ∧ P.quoteSym = m.base.symbol)

/-- The supplied amount is an Amount object whose asset symbol is not the
market quote symbol. -/
def amountMismatch (m : Market) (a : AmountInput) : Prop :=
  ∃ A, a = AmountInput.obj A ∧ A.assetSymbol ≠ m.quote.symbol

/-! ## Concrete instances used by the theorems -/

/-- The USD asset: quote side of the USD to BTS market, precision 4. -/
def USD : Asset := { id := "1.3.121", symbol := "USD", precision := 4 }

/-- The BTS core asset: base side of the USD to BTS market, precision 5. -/
def BTS : Asset := { id := "1.3.0", symbol := "BTS", precision := 5 }

/-- The USD to BTS market: quote USD, base BTS. -/
def usdBts : Market := { base := BTS, quote := USD }

/-- A quote asset of precision 2, for the fixed-point conversion claims. -/
def AST2 : Asset := { id := "1.3.7", symbol := "AST", precision := 2 }

/-- A market whose quote asset has precision 2. -/
def astBts : Market := { base := BTS, quote := AST2 }

/-- Asset lookup knowing exactly the symbols USD and BTS. -/
def resolveUB : List Char → Option Asset := fun s =>
  if s = ['U', 'S', 'D'] then some USD
  else if s = ['B', 'T', 'S'] then some BTS
  else none

/-! ## Claims -/

section ClaimProofs

attribute [local semireducible] Rat.mul Rat.inv Rat.add Rat.sub

/-- C1: evaluation of Market construction from combined specifier strings
over the symbols USD and BTS.  The slash and the colon separators split
into (quote, base) = (USD, BTS) as the claim states, but the dash specifier
raises ValueError instead: the regular expression class denotes the
character range from the slash to the colon and does not match the dash, so
the string is not split and the unpacking into two names fails.  This
refutes the claim for the dash separator, against the stated intent of the
class docstring, which lists the dash as a supported separator. -/
theorem C1_separator_eval :
    marketFromString ['U', 'S', 'D', '/', 'B', 'T', 'S'] resolveUB =
      .ok { base := some BTS, quote := some USD } ∧
    marketFromString ['U', 'S', 'D', ':', 'B', 'T', 'S'] resolveUB =
      .ok { base := some BTS, quote := some USD } ∧
    marketFromString ['U', 'S', 'D', '-', 'B', 'T', 'S'] resolveUB =
      .error PyErr.valueError := by
  exact ⟨rfl, rfl, rfl⟩

/-- C2: on the USD to BTS market (quote USD with precision 4, base BTS with
precision 5), buy at price 300 with amount 10 builds a limit_order_create
operation with amount_to_sell of 300000000 BTS units and min_to_receive of
100000 USD units. -/
theorem C2_buy_usd_bts :
    usdBts.buy "1.2.100" (PriceInput.raw 300) (AmountInput.raw 10) false =
      .ok {
        fee := { amount := 0, asset_id := "1.3.0" }
        seller := "1.2.100"
        amount_to_sell := { amount := 300000000, asset_id := "1.3.0" }
        min_to_receive := { amount := 100000, asset_id := "1.3.121" }
        fill_or_kill := false } := by
  decide

/-- C5 counterexample: constructing a Market with no positional argument
and neither base nor quote keyword succeeds with both attributes unset,
instead of raising an invalid-input error as the claim states. -/
theorem C5_counterexample :
    marketInit [] none none (fun _ => none) =
      .ok { base := none, quote := none } := by
  rfl

/-- C5 amended: with neither accepted input form supplied (the positional
arguments are not a single string, and base and quote are not both given),
Market construction does not raise: it silently returns with the base and
quote attributes never assigned. -/
theorem C5_no_input_no_error (args : List InitArg) (b? q? : Option Asset)
    (resolve : List Char → Option Asset)
    (h1 : ∀ s, args ≠ [InitArg.str s])
    (h2 : ¬(args = [] ∧ b?.isSome ∧ q?.isSome)) :
    marketInit args b? q? resolve = .ok { base := none, quote := none } := by
  match args, h1 with
  | [], _ =>
    match b?, q?, h2 with
    | none, _, _ => rfl
    | some b, none, _ => rfl
    | some b, some q, h2 => exact absurd ⟨rfl, rfl, rfl⟩ h2
  | [InitArg.str s], h1 => exact absurd rfl (h1 s)
  | [InitArg.other], _ => rfl
  | a :: b :: t, _ =>
    match a, b? , q? with
    | InitArg.str s, _, _ => rfl
    | InitArg.other, _, _ => rfl

/-- C5 witness: the amended theorem applied to a single non-string
positional argument. -/
theorem C5_no_input_no_error_witness :
    (∀ s, [InitArg.other] ≠ [InitArg.str s]) ∧
    ¬(([InitArg.other] : List InitArg) = [] ∧
        (none : Option Asset).isSome ∧ (none : Option Asset).isSome) ∧
    marketInit [InitArg.other] none none (fun _ => none) =
      .ok { base := none, quote := none } := by
  refine ⟨fun s h => by simp at h, fun h => by simp at h, ?_⟩
  exact C5_no_input_no_error [InitArg.other] none none (fun _ => none)
    (fun s h => by simp at h) (fun h => by simp at h)

/-- C6 counterexample: with a fill history page whose two entries both
belong to the account, accounttrades with limit 1 returns 2 entries: the
code filters a page of twice the limit and never truncates the matches to
the limit, so the returned length exceeds the requested count. -/
theorem C6_counterexample :
    (accounttrades
        (fun n => List.replicate n { account_id := "1.2.7", payload := "" })
        "1.2.7" 1).length = 2 ∧
    ¬((accounttrades
        (fun n => List.replicate n { account_id := "1.2.7", payload := "" })
        "1.2.7" 1).length ≤ 1) := by
  exact ⟨rfl, by decide⟩

/-- C6 amended: every entry accounttrades returns carries the account id of
the requested account, and, provided the history endpoint returns at most
the requested page size, the result holds at most 2 * limit entries (twice
the requested count, not the requested count). -/
theorem C6_filter_bound (hist : Nat → List FillOrder) (accountId : String)
    (limit : Nat) (hpage : (hist (2 * limit)).length ≤ 2 * limit) :
    (∀ f ∈ accounttrades hist accountId limit, f.account_id = accountId) ∧
    (accounttrades hist accountId limit).length ≤ 2 * limit := by
  constructor
  · intro f hf
    have h := List.mem_filter.mp hf
    exact of_decide_eq_true h.2
  · exact le_trans (List.length_filter_le _ _) hpage

/-- C6 witness: the amended theorem applied to a two-entry history page at
limit 1. -/
theorem C6_filter_bound_witness :
    ((fun n => List.replicate n
        ({ account_id := "1.2.7", payload := "" } : FillOrder)) (2 * 1)).length
      ≤ 2 * 1 ∧
    ((∀ f ∈ accounttrades
        (fun n => List.replicate n { account_id := "1.2.7", payload := "" })
        "1.2.7" 1, f.account_id = "1.2.7") ∧
      (accounttrades
        (fun n => List.replicate n { account_id := "1.2.7", payload := "" })
        "1.2.7" 1).length ≤ 2 * 1) := by
  exact ⟨by decide,
    C6_filter_bound
      (fun n => List.replicate n { account_id := "1.2.7", payload := "" })
      "1.2.7" 1 (by decide)⟩

/-- C9: among the id and symbol entries of the ticker result, base_symbol,
quote_id and quote_symbol are plain values of the asset lookup as the claim
states, but base_id is the one-element tuple holding the base id, because
the assignment at market.py line 124 ends in a comma; it is never the plain
id string the claim describes. -/
theorem C9_ticker_id_fields (b q : Asset) :
    (tickerIdFields b q).base_id = PyVal.tuple1 b.id ∧
    (tickerIdFields b q).base_id ≠ PyVal.str b.id ∧
    (tickerIdFields b q).base_symbol = PyVal.str b.symbol ∧
    (tickerIdFields b q).quote_id = PyVal.str q.id ∧
    (tickerIdFields b q).quote_symbol = PyVal.str q.symbol := by
  refine ⟨rfl, ?_, rfl, rfl, rfl⟩
  intro h
  simp [tickerIdFields] at h


/-- C3: on a market whose two symbols differ, a Price supplied in the
opposite orientation (its base is the market quote and its quote is the
market base) is inverted by buy and sell before use, and the built
operation, integer amount fields included, equals the one obtained by
supplying the already inverted Price directly. -/
theorem C3_inverted_price (m : Market) (accountId : String) (P : PriceObj)
    (a : AmountInput) (kf : Bool)
    (hne : m.base.symbol ≠ m.quote.symbol)
    (hb : P.baseSym = m.quote.symbol) (hq : P.quoteSym = m.base.symbol) :
    m.buy accountId (PriceInput.obj P) a kf =
      m.buy accountId (PriceInput.obj P.invert) a kf ∧
    m.sell accountId (PriceInput.obj P) a kf =
      m.sell accountId (PriceInput.obj P.invert) a kf := by
  have hc1 : ¬(P.quoteSym = m.quote.symbol ∧ P.baseSym = m.base.symbol) := by
    rintro ⟨h1, -⟩
    exact hne (hq.symm.trans h1)
  have e1 : resolvePrice m (PriceInput.obj P) = .ok P.invert.value := by
    simp only [resolvePrice, if_neg hc1, if_pos (And.intro hb hq)]
  have e2 : resolvePrice m (PriceInput.obj P.invert) = .ok P.invert.value := by
    simp only [resolvePrice, PriceObj.invert]
    rw [if_pos (And.intro hb hq)]
  constructor
  · unfold Market.buy
    rw [e1, e2]
  · unfold Market.sell
    rw [e1, e2]

/-- C3 witness: the theorem applied to the USD to BTS market and a Price
carrying BTS per USD, the reversed orientation. -/
theorem C3_inverted_price_witness :
    usdBts.base.symbol ≠ usdBts.quote.symbol ∧
    (usdBts.buy "1.2.100"
        (PriceInput.obj { baseSym := "USD", quoteSym := "BTS", value := 3 })
        (AmountInput.raw 10) false =
      usdBts.buy "1.2.100"
        (PriceInput.obj
          ({ baseSym := "USD", quoteSym := "BTS", value := 3 } : PriceObj).invert)
        (AmountInput.raw 10) false ∧
     usdBts.sell "1.2.100"
        (PriceInput.obj { baseSym := "USD", quoteSym := "BTS", value := 3 })
        (AmountInput.raw 10) false =
      usdBts.sell "1.2.100"
        (PriceInput.obj
          ({ baseSym := "USD", quoteSym := "BTS", value := 3 } : PriceObj).invert)
        (AmountInput.raw 10) false) := by
  refine ⟨by decide, ?_⟩
  exact C3_inverted_price usdBts "1.2.100"
    { baseSym := "USD", quoteSym := "BTS", value := 3 }
    (AmountInput.raw 10) false (by decide) rfl rfl

/-- C4: a supplied Price whose asset symbols are neither the market pair nor
its reverse, or a supplied Amount whose asset symbol is not the market
quote, makes both buy and sell raise, so no operation value is produced for
the transaction finalization collaborator. -/
theorem C4_mismatch_raises (m : Market) (accountId : String) (p : PriceInput)
    (a : AmountInput) (kf : Bool)
    (h : priceMismatch m p ∨ amountMismatch m a) :
    exceptIsError (m.buy accountId p a kf) = true ∧
    exceptIsError (m.sell accountId p a kf) = true := by
  rcases h with ⟨P, rfl, h1, h2⟩ | ⟨A, rfl, hA⟩
  · have e : resolvePrice m (PriceInput.obj P) = .error PyErr.valueError := by
      simp only [resolvePrice, if_neg h1, if_neg h2]
    constructor
    · unfold Market.buy
      rw [e]
      rfl
    · unfold Market.sell
      rw [e]
      rfl
  · have e : resolveAmount m (AmountInput.obj A) = .error PyErr.assertionError := by
      simp only [resolveAmount, if_neg hA]
    cases hp : resolvePrice m p with
    | error err =>
      constructor
      · unfold Market.buy
        rw [hp]
        rfl
      · unfold Market.sell
        rw [hp]
        rfl
    | ok v =>
      constructor
      · unfold Market.buy
        rw [hp, e]
        rfl
      · unfold Market.sell
        rw [hp, e]
        rfl

/-- C4 witness: the theorem applied to the USD to BTS market and a Price
over two unrelated symbols. -/
theorem C4_mismatch_raises_witness :
    priceMismatch usdBts
      (PriceInput.obj { baseSym := "GOLD", quoteSym := "SILVER", value := 3 }) ∧
    exceptIsError (usdBts.buy "1.2.100"
      (PriceInput.obj { baseSym := "GOLD", quoteSym := "SILVER", value := 3 })
      (AmountInput.raw 10) false) = true ∧
    exceptIsError (usdBts.sell "1.2.100"
      (PriceInput.obj { baseSym := "GOLD", quoteSym := "SILVER", value := 3 })
      (AmountInput.raw 10) false) = true := by
  have h : priceMismatch usdBts
      (PriceInput.obj { baseSym := "GOLD", quoteSym := "SILVER", value := 3 }) :=
    ⟨{ baseSym := "GOLD", quoteSym := "SILVER", value := 3 }, rfl,
      by decide, by decide⟩
  have hc := C4_mismatch_raises usdBts "1.2.100"
    (PriceInput.obj { baseSym := "GOLD", quoteSym := "SILVER", value := 3 })
    (AmountInput.raw 10) false (Or.inl h)
  exact ⟨h, hc.1, hc.2⟩

/-- C7 counterexample: the base asset is settlement-backed with the quote as
its backing asset, yet the ticker carries no settlement price entry at all,
because the quote side also has a bitasset data id (with an unrelated
backing asset), and the elif branch for the base side never runs.  The
claim requires a base settlement price entry here. -/
theorem C7_counterexample :
    ({ id := "1.3.113", symbol := "CNY", precision := 4,
        bitasset_data_id := some "2.4.13" } : Asset).bitasset_data_id
      = some "2.4.13" ∧
    ((fun i => if i = "2.4.21"
        then { short_backing_asset := "1.3.0", settlement_price := 3 }
        else { short_backing_asset := "1.3.121", settlement_price := 7 } :
        String → Bitasset) "2.4.13").short_backing_asset
      = ({ id := "1.3.121", symbol := "USD", precision := 4,
            bitasset_data_id := some "2.4.21" } : Asset).id ∧
    tickerSettlement
      { id := "1.3.121", symbol := "USD", precision := 4,
        bitasset_data_id := some "2.4.21" }
      { id := "1.3.113", symbol := "CNY", precision := 4,
        bitasset_data_id := some "2.4.13" }
      (fun i => if i = "2.4.21"
        then { short_backing_asset := "1.3.0", settlement_price := 3 }
        else { short_backing_asset := "1.3.121", settlement_price := 7 })
      = { quoteSettlement_price := none, base_settlement_price := none } := by
  exact ⟨rfl, by decide, by decide⟩

/-- C7 amended: the quote settlement price entry is present exactly when the
quote asset is settlement-backed with the base as its backing asset, and
the base settlement price entry is present exactly when the quote asset is
NOT settlement-backed and the base asset is settlement-backed with the
quote as its backing asset; when the quote side carries bitasset data, the
base side is never examined. -/
theorem C7_settlement_characterization (q b : Asset)
    (getObject : String → Bitasset) :
    ((tickerSettlement q b getObject).quoteSettlement_price ≠ none ↔
      ∃ i, q.bitasset_data_id = some i ∧
        (getObject i).short_backing_asset = b.id) ∧
    ((tickerSettlement q b getObject).base_settlement_price ≠ none ↔
      q.bitasset_data_id = none ∧
        ∃ i, b.bitasset_data_id = some i ∧
          (getObject i).short_backing_asset = q.id) := by
  cases hq : q.bitasset_data_id with
  | some qid =>
    constructor
    · by_cases hc : (getObject qid).short_backing_asset = b.id <;>
        simp [tickerSettlement, hq, hc]
    · simp [tickerSettlement, hq]
  | none =>
    cases hb : b.bitasset_data_id with
    | some bid =>
      constructor
      · simp [tickerSettlement, hq, hb]
      · by_cases hc : (getObject bid).short_backing_asset = q.id <;>
          simp [tickerSettlement, hq, hb, hc]
    | none =>
      constructor <;> simp [tickerSettlement, hq, hb]

/-- C8: the decimal 0.29 is expressible with two digits at an asset
precision of 2, and its exact scaling is the integer 29; but converting it
to integer units the way buy and sell do yields 28, because the double
product lies just below 29 and int() truncates, and converting 28 back the
way accountopenorders does yields the double of 0.28, not 0.29.  The round
trip therefore changes the value in its last decimal place, refuting the
claimed property on this input of the conversion code. -/
theorem C8_roundtrip_failing_input :
    pyInt ((29 : ℚ) / 100 * ((10 ^ 2 : ℕ) : ℚ)) = 29 ∧
    toIntUnits (pyFloat (29 / 100)) 2 = 28 ∧
    (astBts.buy "1.2.100" (PriceInput.raw 1)
        (AmountInput.raw (pyFloat (29 / 100))) false).map
        (fun o => o.min_to_receive.amount) = .ok 28 ∧
    fromIntUnits 28 2 = pyFloat (28 / 100) ∧
    pyFloat (28 / 100) ≠ pyFloat (29 / 100) ∧
    pyFloat (28 / 100) ≠ (29 : ℚ) / 100 := by
  exact ⟨by decide, by decide, by decide, by decide, by decide, by decide⟩

/-- C10: buy and sell obtain the integer operation fields by truncating the
double products toward zero, not by rounding to nearest: with the double
nearest to 0.29 as amount on a market whose quote precision is 2, the float
product lies just below 29, so buy submits min_to_receive 28 and sell
submits amount_to_sell 28, one less than the exact scaled value 29, while
rounding the same product to the nearest integer would give 29. -/
theorem C10_truncation_not_rounding :
    (astBts.buy "1.2.100" (PriceInput.raw 1)
        (AmountInput.raw (pyFloat (29 / 100))) false).map
        (fun o => o.min_to_receive.amount) = .ok 28 ∧
    (astBts.sell "1.2.100" (PriceInput.raw 1)
        (AmountInput.raw (pyFloat (29 / 100))) false).map
        (fun o => o.amount_to_sell.amount) = .ok 28 ∧
    nearestInt (fmul (pyFloat (29 / 100)) (roundB64 ((10 ^ 2 : ℕ) : ℚ))) = 29 ∧
    pyInt ((29 : ℚ) / 100 * ((10 ^ 2 : ℕ) : ℚ)) = 29 := by
  exact ⟨by decide, by decide, by decide, by decide⟩

end ClaimProofs
